import Mathlib

/-!
Verification development for the Real-Estate-Management-System repository
(Django application, `properties` app). The Python source in
`properties/models.py`, `properties/forms.py` and `properties/views.py` is
shallowly embedded: each model becomes a Lean structure over exact arithmetic
(`ℚ` for SQL DECIMAL columns, `Nat` for surrogate keys and dates), and each
view's POST path becomes a pure function from a database state and the
validated form data to an outcome carrying the (possibly partially) updated
database state. Store writes (Django `Model.save()` calls, each of which
commits on its own because the views open no enclosing transaction) are made
fallible through an explicit oracle so that the failure semantics of the
views can be stated.
-/

namespace RealEstate

/-- Choices of `Property.status` in models.py. -/
inductive PropertyStatus where
  | available
  | pending
  | sold
  | rented
  | off_market
deriving DecidableEq, Repr

/-- Choices of `Property.listing_type` in models.py. -/
inductive ListingType where
  | sale
  | rent
deriving DecidableEq, Repr

/-- Choices of `Appointment.status` in models.py. -/
inductive AppointmentStatus where
  | scheduled
  | completed
  | cancelled
  | no_show
deriving DecidableEq, Repr

/-- Choices of `Transaction.transaction_type` in models.py. -/
inductive TransactionType where
  | sale
  | rental
deriving DecidableEq, Repr

/-- Choices of `Transaction.payment_status` in models.py. -/
inductive PaymentStatus where
  | pending
  | completed
  | failed
  | refunded
deriving DecidableEq, Repr

/-- Choices of `User.user_type` in models.py. -/
inductive UserType where
  | admin
  | agent
  | client
deriving DecidableEq, Repr

/-- The fields of the custom `User` model that the embedded views consult. -/
structure UserR where
  user_id : Nat
  user_type : UserType
deriving DecidableEq, Repr

/-- The `Location` model (models.py): address rows referenced by properties. -/
structure Location where
  location_id : Nat
  street_address : String
  city : String
  state : String
  zip_code : String
  country : String
deriving DecidableEq, Repr

/-- The `Agent` model (models.py). `commission_rate` and `rating` are DECIMAL
columns, embedded as exact rationals; `total_sales` is the total-deals
counter incremented by the transaction view. -/
structure Agent where
  agent_id : Nat
  user_id : Nat
  license_number : String
  agency_name : Option String
  commission_rate : ℚ
  specialization : Option String
  years_experience : Int
  rating : ℚ
  total_sales : Int
deriving DecidableEq, Repr

/-- The `Client` model (models.py). -/
structure Client where
  client_id : Nat
  user_id : Nat
  preferred_contact_method : String
  budget_min : Option ℚ
  budget_max : Option ℚ
  preferred_location : Option String
  looking_for : String
deriving DecidableEq, Repr

/-- The `Property` model (models.py). Dates are embedded as `Nat` ordinals. -/
structure Property where
  property_id : Nat
  location_id : Nat
  property_type_id : Nat
  agent_id : Nat
  title : String
  description : Option String
  price : ℚ
  listing_type : ListingType
  bedrooms : Int
  bathrooms : ℚ
  square_feet : Option Int
  lot_size : Option ℚ
  year_built : Option Int
  status : PropertyStatus
  listed_date : Nat
  sold_date : Option Nat
  parking_spaces : Int
  has_garage : Bool
  has_pool : Bool
  has_garden : Bool
deriving DecidableEq, Repr

/-- The `Appointment` model (models.py): a viewing of a property by a client,
with the agent denormalized onto the row. -/
structure Appointment where
  appointment_id : Nat
  property_id : Nat
  client_id : Nat
  agent_id : Nat
  appointment_date : Nat
  duration_minutes : Int
  status : AppointmentStatus
  notes : Option String
deriving DecidableEq, Repr

/-- The `Transaction` model (models.py). `commission_amount` is a nullable
`DecimalField(max_digits=12, decimal_places=2)` column, embedded as
`Option ℚ`; every value written to it goes through the save-time
quantization to the two-decimal grid (`quantizeHalfEven2`) that Django's
`DecimalField`/DECIMAL(12,2) storage performs, so stored values always lie
on that grid. -/
structure Transaction where
  transaction_id : Nat
  property_id : Nat
  client_id : Nat
  agent_id : Nat
  transaction_type : TransactionType
  transaction_date : Nat
  final_price : ℚ
  commission_amount : Option ℚ
  payment_status : PaymentStatus
  lease_start_date : Option Nat
  lease_end_date : Option Nat
  notes : Option String
deriving DecidableEq, Repr

/-- The `Review` model (models.py). `property` and `agent` are nullable
foreign keys (SET_NULL on delete). Its `Meta` declares `db_table`,
`managed = False` and an ordering, and nothing else: in particular no
`unique_together` and no `UniqueConstraint`. -/
structure Review where
  review_id : Nat
  client_id : Nat
  property_id : Option Nat
  agent_id : Option Nat
  rating : Int
  review_text : Option String
  is_verified : Bool
deriving DecidableEq, Repr

/-- The uniqueness constraints declared by `Review.Meta` in models.py: there
are none (the class body declares only `db_table`, `managed` and `ordering`),
so the backing store enforces no (client, property) uniqueness. -/
def reviewMetaUniqueConstraints : List (List String) := []

/-- The database state: one list of rows per table touched by the embedded
views. Row order in each list is insertion order. -/
structure DB where
  locations : List Location
  agents : List Agent
  clients : List Client
  properties : List Property
  appointments : List Appointment
  transactions : List Transaction
  reviews : List Review
deriving DecidableEq, Repr

/-- Lookup of a property row by primary key (`get_object_or_404(Property, pk=...)`). -/
def findProperty (db : DB) (pk : Nat) : Option Property :=
  db.properties.find? (fun p => p.property_id == pk)

/-- Lookup of an agent row by its owning user (`Agent.objects.get(user=...)`). -/
def findAgentByUser (db : DB) (uid : Nat) : Option Agent :=
  db.agents.find? (fun a => a.user_id == uid)

/-- Lookup of a client row by its owning user (`Client.objects.get(user=...)`). -/
def findClientByUser (db : DB) (uid : Nat) : Option Client :=
  db.clients.find? (fun c => c.user_id == uid)

/-- Lookup of a client row by primary key (`Client.objects.get(client_id=...)`). -/
def findClient (db : DB) (cid : Nat) : Option Client :=
  db.clients.find? (fun c => c.client_id == cid)

/-- Lookup of an appointment row by primary key. -/
def findAppointment (db : DB) (pk : Nat) : Option Appointment :=
  db.appointments.find? (fun a => a.appointment_id == pk)

/-- Lookup of a location row by primary key (the `location` foreign key). -/
def findLocation (db : DB) (pk : Nat) : Option Location :=
  db.locations.find? (fun l => l.location_id == pk)

/-- In-place UPDATE of a property row, keyed by primary key. -/
def updateProperty (db : DB) (p : Property) : DB :=
  { db with properties :=
      db.properties.map (fun q => if q.property_id == p.property_id then p else q) }

/-- In-place UPDATE of an agent row, keyed by primary key. -/
def updateAgent (db : DB) (a : Agent) : DB :=
  { db with agents :=
      db.agents.map (fun b => if b.agent_id == a.agent_id then a else b) }

/-- In-place UPDATE of an appointment row, keyed by primary key. -/
def updateAppointment (db : DB) (a : Appointment) : DB :=
  { db with appointments :=
      db.appointments.map (fun b => if b.appointment_id == a.appointment_id then a else b) }

/-- Method `Property.get_price_per_sqft` (models.py): Python guard
`if self.square_feet and self.square_feet > 0` — `None` and `0` are falsy,
then the strict positivity test — else the method returns `0`. -/
def get_price_per_sqft (p : Property) : ℚ :=
  match p.square_feet with
  | none => 0
  | some s => if s ≠ 0 ∧ s > 0 then p.price / (s : ℚ) else 0

/-- The editable fields of `AgentProfileForm` (forms.py): exactly these five
model fields appear in `Meta.fields`. -/
structure AgentProfileFormData where
  license_number : String
  agency_name : Option String
  commission_rate : ℚ
  specialization : Option String
  years_experience : Int
deriving DecidableEq, Repr

/-- Outcome of the profile-update view: either the updated database or an
unchanged database with a not-found error. -/
inductive ProfileOutcome where
  | ok (db : DB)
  | notFound (db : DB)
deriving DecidableEq, Repr

/-- View `agent_profile_update` (views.py), POST path with a valid form:
`get_object_or_404(Agent, user=request.user)` then `form.save()`, which
writes back the instance with exactly the five `AgentProfileForm` fields
replaced by the cleaned form data. -/
def agent_profile_update (db : DB) (actor : UserR) (f : AgentProfileFormData) :
    ProfileOutcome :=
  match findAgentByUser db actor.user_id with
  | none => .notFound db
  | some a =>
      .ok (updateAgent db
        { a with
          license_number := f.license_number
          agency_name := f.agency_name
          commission_rate := f.commission_rate
          specialization := f.specialization
          years_experience := f.years_experience })

/-- Round a rational to the nearest integer, ties to the even integer —
the `decimal` module's default ROUND_HALF_EVEN rounding used by Django when
quantizing a `DecimalField` value for storage. -/
def roundHalfEven (x : ℚ) : ℤ :=
  let f := ⌊x⌋
  let r := x - (f : ℚ)
  if r < 1/2 then f
  else if r > 1/2 then f + 1
  else if f % 2 = 0 then f else f + 1

/-- Django `DecimalField(decimal_places=2)` storage: on save the value is
quantized to two decimal places (`django.db.backends.utils.format_number`
calls `Decimal.quantize` in a copy of the default context, whose rounding is
ROUND_HALF_EVEN) before it reaches the DECIMAL(12,2) column. -/
def quantizeHalfEven2 (x : ℚ) : ℚ := ((roundHalfEven (x * 100) : ℤ) : ℚ) / 100

/-- The editable fields of `TransactionForm` (forms.py `Meta.fields`), as
cleaned data of a valid submission. `final_price` maps a
`DecimalField(decimal_places=2)`, whose form validation already restricts a
valid submission to the two-decimal grid, so its save-time quantization is
the identity. -/
structure TransactionFormData where
  transaction_type : TransactionType
  transaction_date : Nat
  final_price : ℚ
  payment_status : PaymentStatus
  lease_start_date : Option Nat
  lease_end_date : Option Nat
  notes : Option String
deriving DecidableEq, Repr

/-- Which of the three `save()` calls of `transaction_create_view` the store
accepts. The view opens no database transaction, so each successful `save()`
commits on its own; a save the store rejects raises inside the `try` block
and is caught by the generic `except Exception` handler. -/
structure SaveOracle where
  txnSave : Bool
  propSave : Bool
  agentSave : Bool
deriving DecidableEq, Repr

/-- Error kinds a `transaction_create_view` request can end in. -/
inductive CloseDealError where
  | forbidden
  | notFound
  | validation
  | clientNotFound
  | storage
deriving DecidableEq, Repr

/-- Outcome of `transaction_create_view`: success carries the committed
database and the created transaction row; an error carries the database as
the store left it (the writes committed before the failing one persist,
since no enclosing transaction rolls them back). -/
inductive CloseDealOutcome where
  | ok (db : DB) (t : Transaction)
  | err (e : CloseDealError) (db : DB)
deriving DecidableEq, Repr

/-- Database state carried by a `CloseDealOutcome`. -/
def CloseDealOutcome.db : CloseDealOutcome → DB
  | .ok db _ => db
  | .err _ db => db

/-- View `transaction_create_view` (views.py, POST path). Steps in source
order: the actor must be an agent; `get_object_or_404` on the property and
on the actor's agent profile; ownership check `property_obj.agent != agent`;
form validity and presence of `client_id` (otherwise the form is re-rendered
with no write); `Client.objects.get(client_id=...)`; then
`transaction.save()`, the property status / sold_date update and save, and
`agent.total_sales += 1` with save — three separate commits with no
enclosing transaction. The view computes the commission as
`final_price * (commission_rate / 100)` in exact `Decimal` arithmetic with
no explicit rounding; `transaction.save()` then stores it through the
`DecimalField(decimal_places=2)` quantization (`quantizeHalfEven2`). -/
def transaction_create_view (db : DB) (actor : UserR) (property_pk : Nat)
    (form : Option TransactionFormData) (client_id : Option Nat)
    (oracle : SaveOracle) : CloseDealOutcome :=
  if actor.user_type ≠ UserType.agent then .err .forbidden db
  else
    match findProperty db property_pk with
    | none => .err .notFound db
    | some property_obj =>
      match findAgentByUser db actor.user_id with
      | none => .err .notFound db
      | some agent =>
        if property_obj.agent_id ≠ agent.agent_id then .err .forbidden db
        else
          match form, client_id with
          | some f, some cid =>
            match findClient db cid with
            | none => .err .clientNotFound db
            | some client =>
              let commission := f.final_price * (agent.commission_rate / 100)
              let t : Transaction :=
                { transaction_id := db.transactions.length + 1
                  property_id := property_obj.property_id
                  client_id := client.client_id
                  agent_id := agent.agent_id
                  transaction_type := f.transaction_type
                  transaction_date := f.transaction_date
                  final_price := f.final_price
                  commission_amount := some (quantizeHalfEven2 commission)
                  payment_status := f.payment_status
                  lease_start_date := f.lease_start_date
                  lease_end_date := f.lease_end_date
                  notes := f.notes }
              if ¬ oracle.txnSave then .err .storage db
              else
                let db1 : DB := { db with transactions := db.transactions ++ [t] }
                let newStatus : PropertyStatus :=
                  if f.transaction_type = TransactionType.sale then .sold else .rented
                if ¬ oracle.propSave then .err .storage db1
                else
                  let db2 := updateProperty db1
                    { property_obj with
                      status := newStatus
                      sold_date := some f.transaction_date }
                  if ¬ oracle.agentSave then .err .storage db2
                  else
                    let db3 := updateAgent db2
                      { agent with total_sales := agent.total_sales + 1 }
                    .ok db3 t
          | _, _ => .err .validation db

/-- The editable fields of `AppointmentForm` (forms.py `Meta.fields`). -/
structure AppointmentFormData where
  appointment_date : Nat
  duration_minutes : Int
  notes : Option String
deriving DecidableEq, Repr

/-- Outcome of the appointment views. -/
inductive ApptOutcome where
  | ok (db : DB) (a : Appointment)
  | forbidden (db : DB)
  | notFound (db : DB)
deriving DecidableEq, Repr

/-- View `appointment_create_view` (views.py, POST path with a valid form):
only clients may schedule; property `get_object_or_404`; the client profile
must exist; the new row takes `property`, `client`, `agent :=
property_obj.agent` (a snapshot of the listing's agent at creation time) and
`status := scheduled`. -/
def appointment_create_view (db : DB) (actor : UserR) (property_pk : Nat)
    (f : AppointmentFormData) : ApptOutcome :=
  if actor.user_type ≠ UserType.client then .forbidden db
  else
    match findProperty db property_pk with
    | none => .notFound db
    | some property_obj =>
      match findClientByUser db actor.user_id with
      | none => .notFound db
      | some client =>
        let appointment : Appointment :=
          { appointment_id := db.appointments.length + 1
            property_id := property_obj.property_id
            client_id := client.client_id
            agent_id := property_obj.agent_id
            appointment_date := f.appointment_date
            duration_minutes := f.duration_minutes
            status := AppointmentStatus.scheduled
            notes := f.notes }
        .ok { db with appointments := db.appointments ++ [appointment] } appointment

/-- The ownership check of `appointment_update_view`: a client actor must own
the appointment, an agent actor must be its agent, and any other actor
(admin) passes. -/
def apptUpdateAuthorized (db : DB) (actor : UserR) (appointment : Appointment) : Bool :=
  match actor.user_type with
  | UserType.client =>
      match findClientByUser db actor.user_id with
      | some c => appointment.client_id == c.client_id
      | none => false
  | UserType.agent =>
      match findAgentByUser db actor.user_id with
      | some a => appointment.agent_id == a.agent_id
      | none => false
  | UserType.admin => true

/-- View `appointment_update_view` (views.py, POST path with a valid
`AppointmentUpdateForm`): after the ownership check, `form.save()` writes
the instance with `status` and `notes` replaced by the submitted values.
Neither the view nor `AppointmentUpdateForm` inspects the current status:
no transition guard exists anywhere on this path. -/
def appointment_update_view (db : DB) (actor : UserR) (pk : Nat)
    (newStatus : AppointmentStatus) (newNotes : Option String) : ApptOutcome :=
  match findAppointment db pk with
  | none => .notFound db
  | some appointment =>
    if ¬ apptUpdateAuthorized db actor appointment then .forbidden db
    else
      let a2 := { appointment with status := newStatus, notes := newNotes }
      .ok (updateAppointment db a2) a2

/-- The editable fields of `ReviewForm` (forms.py `Meta.fields`). -/
structure ReviewFormData where
  rating : Int
  review_text : Option String
deriving DecidableEq, Repr

/-- Outcome of `review_create_view`. -/
inductive ReviewOutcome where
  | ok (db : DB) (r : Review)
  | forbidden (db : DB)
  | notFound (db : DB)
  | alreadyReviewed (db : DB)
deriving DecidableEq, Repr

/-- The pre-check of `review_create_view`:
`Review.objects.filter(client=client, property=property_obj).exists()`. -/
def reviewExistsFor (db : DB) (cid : Nat) (property_pk : Nat) : Bool :=
  db.reviews.any (fun r => r.client_id == cid && r.property_id == some property_pk)

/-- The INSERT step of `review_create_view` (`review.save()`): the new row
takes the client, the property, and `agent := property_obj.agent`. The
`Reviews` table carries no uniqueness constraint
(`reviewMetaUniqueConstraints = []`), so the store accepts the row whether
or not an equal (client, property) pair is already present. -/
def reviewInsert (db : DB) (client : Client) (property_obj : Property)
    (f : ReviewFormData) : DB :=
  { db with reviews := db.reviews ++
      [{ review_id := db.reviews.length + 1
         client_id := client.client_id
         property_id := some property_obj.property_id
         agent_id := some property_obj.agent_id
         rating := f.rating
         review_text := f.review_text
         is_verified := false }] }

/-- View `review_create_view` (views.py, POST path with a valid form): only
clients may review; property and client profile lookups; then the
check-then-insert sequence — the `exists()` pre-check redirects away with a
warning, otherwise `review.save()` inserts. -/
def review_create_view (db : DB) (actor : UserR) (property_pk : Nat)
    (f : ReviewFormData) : ReviewOutcome :=
  if actor.user_type ≠ UserType.client then .forbidden db
  else
    match findProperty db property_pk with
    | none => .notFound db
    | some property_obj =>
      match findClientByUser db actor.user_id with
      | none => .notFound db
      | some client =>
        if reviewExistsFor db client.client_id property_pk then .alreadyReviewed db
        else
          let db2 := reviewInsert db client property_obj f
          .ok db2 (db2.reviews.getLastD
            { review_id := 0, client_id := 0, property_id := none, agent_id := none
              rating := 0, review_text := none, is_verified := false })

/-- Character-list test used to embed SQL `ILIKE`: does the first list occur
at the head of the second? -/
def charsStartWith : List Char → List Char → Bool
  | [], _ => true
  | _ :: _, [] => false
  | a :: as, b :: bs => a == b && charsStartWith as bs

/-- Does the first character list occur contiguously anywhere in the second? -/
def charsContain (needle : List Char) : List Char → Bool
  | [] => charsStartWith needle []
  | c :: rest => charsStartWith needle (c :: rest) || charsContain needle rest

/-- Django `__icontains`: case-insensitive substring containment. -/
def icontains (hay needle : String) : Bool :=
  charsContain needle.toLower.toList hay.toLower.toList

/-- City of a property through its `location` foreign key
(`location__city`); the schema guarantees the row exists. -/
def propertyCity (db : DB) (p : Property) : String :=
  match findLocation db p.location_id with
  | some l => l.city
  | none => ""

/-- Cleaned data of `PropertySearchForm` (forms.py): every field is
`required=False`, so each cleans to an absent/empty value or a real one.
`none` stands for the absent Python value (empty string, `None`, or the
empty choice). -/
structure PropertySearchFormData where
  search_query : Option String
  listing_type : Option ListingType
  property_type : Option Nat
  min_price : Option ℚ
  max_price : Option ℚ
  min_bedrooms : Option Int
  city : Option String
  status : Option PropertyStatus
deriving DecidableEq, Repr

/-- Python truthiness of a cleaned `CharField` value: the empty string and
the absent value are falsy. -/
def strTruthy : Option String → Bool
  | some s => s ≠ ""
  | none => false

/-- Python truthiness of a cleaned `DecimalField` value: `None` and
`Decimal(0)` are falsy. -/
def decTruthy : Option ℚ → Bool
  | some x => x ≠ 0
  | none => false

/-- Python truthiness of a cleaned `IntegerField` value: `None` and `0` are
falsy. -/
def intTruthy : Option Int → Bool
  | some n => n ≠ 0
  | none => false

/-- One `if <cleaned value>: qs = qs.filter(...)` step of the view. -/
def applyIf (b : Bool) (c : Property → Bool) (l : List Property) : List Property :=
  if b then l.filter c else l

/-- The `Q(title__icontains=q) | Q(description__icontains=q) |
Q(location__city__icontains=q)` predicate; a NULL description matches
nothing. -/
def searchPred (db : DB) (q : String) (p : Property) : Bool :=
  icontains p.title q || icontains (p.description.getD "") q ||
    icontains (propertyCity db p) q

/-- View `property_list_view` (views.py): the base queryset is
`Property.objects.filter(status='available')`, and each cleaned search-form
field, when truthy, chains one more `.filter(...)` onto it. -/
def property_list_view (db : DB) (f : PropertySearchFormData) : List Property :=
  let qs := db.properties.filter (fun p => p.status == PropertyStatus.available)
  let qs := applyIf (strTruthy f.search_query)
    (fun p => searchPred db (f.search_query.getD "") p) qs
  let qs := applyIf f.listing_type.isSome
    (fun p => f.listing_type == some p.listing_type) qs
  let qs := applyIf f.property_type.isSome
    (fun p => f.property_type == some p.property_type_id) qs
  let qs := applyIf (decTruthy f.min_price)
    (fun p => decide (f.min_price.getD 0 ≤ p.price)) qs
  let qs := applyIf (decTruthy f.max_price)
    (fun p => decide (p.price ≤ f.max_price.getD 0)) qs
  let qs := applyIf (intTruthy f.min_bedrooms)
    (fun p => decide (f.min_bedrooms.getD 0 ≤ p.bedrooms)) qs
  let qs := applyIf (strTruthy f.city)
    (fun p => icontains (propertyCity db p) (f.city.getD "")) qs
  let qs := applyIf f.status.isSome
    (fun p => f.status == some p.status) qs
  qs

/-- Field reassignment of a Property through the admin change form: the
`PropertyAdmin` fieldsets in admin.py expose the `agent` foreign key, so an
operator can reassign the listing's agent after appointments exist. -/
def admin_property_change_agent (db : DB) (pk : Nat) (newAgent : Nat) : DB :=
  match findProperty db pk with
  | none => db
  | some p => updateProperty db { p with agent_id := newAgent }

/-- Success test for a close-deal outcome. -/
def CloseDealOutcome.isOk : CloseDealOutcome → Bool
  | .ok _ _ => true
  | .err _ _ => false

/-- Database state carried by an appointment-view outcome. -/
def ApptOutcome.db : ApptOutcome → DB
  | .ok db _ => db
  | .forbidden db => db
  | .notFound db => db

/-- Database state carried by a review-view outcome. -/
def ReviewOutcome.db : ReviewOutcome → DB
  | .ok db _ => db
  | .forbidden db => db
  | .notFound db => db
  | .alreadyReviewed db => db

/-- Database state carried by a profile-view outcome. -/
def ProfileOutcome.db : ProfileOutcome → DB
  | .ok db => db
  | .notFound db => db

/-! Concrete fixture data used to evaluate the embedded views. -/

/-- A location row. -/
def loc1 : Location :=
  { location_id := 1, street_address := "1 Main St", city := "Boston",
    state := "MA", zip_code := "02108", country := "USA" }

/-- An agent row with the default 3.00 commission rate and 4 closed deals. -/
def agent1 : Agent :=
  { agent_id := 1, user_id := 10, license_number := "L100",
    agency_name := some "Acme Realty", commission_rate := 3,
    specialization := none, years_experience := 5, rating := 4,
    total_sales := 4 }

/-- A client row. -/
def client1 : Client :=
  { client_id := 1, user_id := 20, preferred_contact_method := "email",
    budget_min := none, budget_max := none, preferred_location := none,
    looking_for := "buy" }

/-- An available sale listing priced at 300000. -/
def prop1 : Property :=
  { property_id := 1, location_id := 1, property_type_id := 1, agent_id := 1,
    title := "Cozy Cottage", description := none, price := 300000,
    listing_type := ListingType.sale, bedrooms := 3, bathrooms := 2,
    square_feet := some 1500, lot_size := none, year_built := some 1990,
    status := PropertyStatus.available, listed_date := 100, sold_date := none,
    parking_spaces := 1, has_garage := false, has_pool := false,
    has_garden := false }

/-- The account behind `agent1`. -/
def agentUser : UserR := { user_id := 10, user_type := UserType.agent }

/-- The account behind `client1`. -/
def clientUser : UserR := { user_id := 20, user_type := UserType.client }

/-- An operator account. -/
def adminUser : UserR := { user_id := 30, user_type := UserType.admin }

/-- Base database: one location, one agent, one client, one available
listing, nothing else. -/
def db0 : DB :=
  { locations := [loc1], agents := [agent1], clients := [client1],
    properties := [prop1], appointments := [], transactions := [],
    reviews := [] }

/-- A valid sale transaction form at the listed price. -/
def form1 : TransactionFormData :=
  { transaction_type := TransactionType.sale, transaction_date := 200,
    final_price := 300000, payment_status := PaymentStatus.pending,
    lease_start_date := none, lease_end_date := none, notes := none }

/-- Database whose only listing is already sold. -/
def dbSold : DB :=
  { db0 with properties := [{ prop1 with status := PropertyStatus.sold }] }

/-- Database whose only listing is off the market. -/
def dbOff : DB :=
  { db0 with properties := [{ prop1 with status := PropertyStatus.off_market }] }

/-- Database with one completed (terminal) appointment. -/
def appt1 : Appointment :=
  { appointment_id := 1, property_id := 1, client_id := 1, agent_id := 1,
    appointment_date := 150, duration_minutes := 60,
    status := AppointmentStatus.completed, notes := none }

/-- Database holding `appt1`. -/
def dbAppt : DB := { db0 with appointments := [appt1] }

/-- A five-star review submission. -/
def rform : ReviewFormData := { rating := 5, review_text := none }

/-- An agent at commission rate 5.00, under which a 2.50 sale makes the
exact commission land exactly on a half-cent (0.125). -/
def agentTie : Agent := { agent1 with commission_rate := 5 }

/-- Database listing `prop1` under `agentTie`. -/
def dbTie : DB := { db0 with agents := [agentTie] }

/-- A sale at 2.50, whose exact commission at rate 5.00 is the half-cent tie
0.125. -/
def formTie : TransactionFormData := { form1 with final_price := 5/2 }

/-- A search form with every field absent. -/
def emptySearch : PropertySearchFormData :=
  { search_query := none, listing_type := none, property_type := none,
    min_price := none, max_price := none, min_bedrooms := none,
    city := none, status := none }

/-- An oracle under which the store accepts all three writes. -/
def allOk : SaveOracle := { txnSave := true, propSave := true, agentSave := true }

/-- A profile-update submission for `agent1`. -/
def profileForm1 : AgentProfileFormData :=
  { license_number := "L200", agency_name := none, commission_rate := 4,
    specialization := some "Residential", years_experience := 6 }

/-- A scheduling submission. -/
def apptForm1 : AppointmentFormData :=
  { appointment_date := 150, duration_minutes := 60, notes := none }

/-- The transaction row created by closing `prop1` for `client1` at the
listed price under `agent1` (commission 300000 x 3% = 9000). -/
def t1ok : Transaction :=
  { transaction_id := 1, property_id := 1, client_id := 1, agent_id := 1,
    transaction_type := TransactionType.sale, transaction_date := 200,
    final_price := 300000, commission_amount := some 9000,
    payment_status := PaymentStatus.pending, lease_start_date := none,
    lease_end_date := none, notes := none }

/-- The database after that fully successful close: transaction recorded,
property sold with sold_date 200, agent at 5 total deals. -/
def db3c : DB :=
  { db0 with
    transactions := [t1ok],
    properties := [{ prop1 with status := PropertyStatus.sold, sold_date := some 200 }],
    agents := [{ agent1 with total_sales := 5 }] }

/-- The review row created by `client1` on `prop1`. -/
def r1 : Review :=
  { review_id := 1, client_id := 1, property_id := some 1, agent_id := some 1,
    rating := 5, review_text := none, is_verified := false }

/-- The database after that review is stored. -/
def dbR : DB := { db0 with reviews := [r1] }

/-- A search form supplying only the status filter, set to `sold`. -/
def fStatusSold : PropertySearchFormData :=
  { emptySearch with status := some PropertyStatus.sold }

/-- Half-up rounding to the currency minor unit (two decimal places), as the
spec words the commission rule; defined from the spec, for comparison with
the value the code computes. -/
def specRoundHalfUpCents (x : ℚ) : ℚ := ((⌊x * 100 + 1/2⌋ : ℤ) : ℚ) / 100

/-- The created transaction of a close-deal outcome, when it succeeded. -/
def CloseDealOutcome.txn : CloseDealOutcome → Option Transaction
  | .ok _ t => some t
  | .err _ _ => none

/-- The transaction row created for the 2.50 sale at rate 5.00: the exact
commission 0.125 is quantized on save with ties-to-even, storing 0.12. -/
def tTie : Transaction :=
  { t1ok with final_price := 5/2, commission_amount := some (12/100) }

/-- The database after closing that sale under `agentTie`. -/
def dbTieAfter : DB :=
  { db0 with
    agents := [{ agentTie with total_sales := 5 }],
    transactions := [tTie],
    properties := [{ prop1 with status := PropertyStatus.sold, sold_date := some 200 }] }

/-! Helper lemmas about `find?` over the in-place row updates. -/

/-- Membership in one conditional filter stage of the listing view. -/
theorem mem_applyIf {x : Property} {b : Bool} {c : Property → Bool} {l : List Property} :
    x ∈ applyIf b c l ↔ x ∈ l ∧ (b = true → c x = true) := by
  cases b <;> simp [applyIf, List.mem_filter]

/-- After replacing the row keyed `newA.appointment_id` in an appointment
table, a lookup that previously found a row with that key now finds the
replacement. -/
theorem find?_appt_update (l : List Appointment) (pk : Nat) (appt newA : Appointment)
    (h : l.find? (fun q => q.appointment_id == pk) = some appt)
    (hid : newA.appointment_id = appt.appointment_id) :
    (l.map (fun q => if q.appointment_id == newA.appointment_id then newA else q)).find?
      (fun q => q.appointment_id == pk) = some newA := by
  have hpk : appt.appointment_id = pk := by
    have := List.find?_some h
    simpa using this
  induction l with
  | nil => simp at h
  | cons a as ih =>
      by_cases ha : a.appointment_id = pk
      · have hpa : (a.appointment_id == pk) = true := by simpa using ha
        have haeq : a = appt := by simpa [List.find?, hpa] using h
        subst haeq
        have hcond : (a.appointment_id == newA.appointment_id) = true := by simp [hid]
        have hcond2 : (newA.appointment_id == pk) = true := by simp [hid, hpk]
        simp [List.find?, List.map_cons, hcond, hcond2, -List.find?_map]
      · have hpa : (a.appointment_id == pk) = false := by simpa using ha
        have h' : as.find? (fun q => q.appointment_id == pk) = some appt := by
          simpa [List.find?, hpa] using h
        have hcond : (a.appointment_id == newA.appointment_id) = false := by
          rw [hid, hpk]; exact hpa
        simpa [List.find?, List.map_cons, hcond, hpa, -List.find?_map] using ih h'

/-- After replacing the row keyed `newP.property_id` in a property table, a
lookup that previously found a row with that key now finds the replacement. -/
theorem find?_prop_update (l : List Property) (pk : Nat) (prop newP : Property)
    (h : l.find? (fun q => q.property_id == pk) = some prop)
    (hid : newP.property_id = prop.property_id) :
    (l.map (fun q => if q.property_id == newP.property_id then newP else q)).find?
      (fun q => q.property_id == pk) = some newP := by
  have hpk : prop.property_id = pk := by
    have := List.find?_some h
    simpa using this
  induction l with
  | nil => simp at h
  | cons a as ih =>
      by_cases ha : a.property_id = pk
      · have hpa : (a.property_id == pk) = true := by simpa using ha
        have haprop : a = prop := by simpa [List.find?, hpa] using h
        subst haprop
        have hcond : (a.property_id == newP.property_id) = true := by simp [hid]
        have hcond2 : (newP.property_id == pk) = true := by simp [hid, hpk]
        simp [List.find?, List.map_cons, hcond, hcond2, -List.find?_map]
      · have hpa : (a.property_id == pk) = false := by simpa using ha
        have h' : as.find? (fun q => q.property_id == pk) = some prop := by
          simpa [List.find?, hpa] using h
        have hcond : (a.property_id == newP.property_id) = false := by
          rw [hid, hpk]; exact hpa
        simpa [List.find?, List.map_cons, hcond, hpa, -List.find?_map] using ih h'

/-- After replacing the row keyed `newA.agent_id` in an agent table, a
lookup by owning user that previously found the row with that agent id (or
any row sharing it) now finds the replacement, provided the replacement
keeps the user id. -/
theorem find?_agent_update (l : List Agent) (uid : Nat) (ag newA : Agent)
    (h : l.find? (fun a => a.user_id == uid) = some ag)
    (hid : newA.agent_id = ag.agent_id)
    (hu : newA.user_id = ag.user_id) :
    (l.map (fun b => if b.agent_id == newA.agent_id then newA else b)).find?
      (fun a => a.user_id == uid) = some newA := by
  have huid : ag.user_id = uid := by
    have := List.find?_some h
    simpa using this
  induction l with
  | nil => simp at h
  | cons a as ih =>
      by_cases ha : a.user_id = uid
      · have hpa : (a.user_id == uid) = true := by simpa using ha
        have haag : a = ag := by simpa [List.find?, hpa] using h
        subst haag
        have hcond : (a.agent_id == newA.agent_id) = true := by simp [hid]
        have hcond2 : (newA.user_id == uid) = true := by simp [hu, huid]
        simp [List.find?, List.map_cons, hcond, hcond2, -List.find?_map]
      · have hpa : (a.user_id == uid) = false := by simpa using ha
        have h' : as.find? (fun b => b.user_id == uid) = some ag := by
          simpa [List.find?, hpa] using h
        by_cases hagid : a.agent_id = newA.agent_id
        · have hcond : (a.agent_id == newA.agent_id) = true := by simpa using hagid
          have hcond2 : (newA.user_id == uid) = true := by simp [hu, huid]
          simp [List.find?, List.map_cons, hcond, hcond2, -List.find?_map]
        · have hcond : (a.agent_id == newA.agent_id) = false := by simpa using hagid
          simpa [List.find?, List.map_cons, hcond, hpa, -List.find?_map] using ih h'

/-- Inversion of a successful `transaction_create_view` call: the guards that
were passed and the exact shape of the created row and committed state. -/
theorem closeDeal_ok_inv (db : DB) (actor : UserR) (pk cid : Nat)
    (f : TransactionFormData) (o : SaveOracle) (db' : DB) (t : Transaction)
    (h : transaction_create_view db actor pk (some f) (some cid) o = .ok db' t) :
    actor.user_type = UserType.agent ∧
    ∃ prop ag cl,
      findProperty db pk = some prop ∧
      findAgentByUser db actor.user_id = some ag ∧
      prop.agent_id = ag.agent_id ∧
      findClient db cid = some cl ∧
      t = { transaction_id := db.transactions.length + 1
            property_id := prop.property_id
            client_id := cl.client_id
            agent_id := ag.agent_id
            transaction_type := f.transaction_type
            transaction_date := f.transaction_date
            final_price := f.final_price
            commission_amount := some (quantizeHalfEven2 (f.final_price * (ag.commission_rate / 100)))
            payment_status := f.payment_status
            lease_start_date := f.lease_start_date
            lease_end_date := f.lease_end_date
            notes := f.notes } ∧
      db' = updateAgent
              (updateProperty { db with transactions := db.transactions ++ [t] }
                { prop with
                  status := if f.transaction_type = TransactionType.sale
                            then PropertyStatus.sold else PropertyStatus.rented
                  sold_date := some f.transaction_date })
              { ag with total_sales := ag.total_sales + 1 } := by
  by_cases h1 : actor.user_type = UserType.agent
  · cases hp : findProperty db pk with
    | none => rw [transaction_create_view] at h; simp [h1, hp] at h
    | some prop =>
      cases hag : findAgentByUser db actor.user_id with
      | none => rw [transaction_create_view] at h; simp [h1, hp, hag] at h
      | some ag =>
        by_cases h4 : prop.agent_id = ag.agent_id
        · cases hcl : findClient db cid with
          | none => rw [transaction_create_view] at h; simp [h1, hp, hag, h4, hcl] at h
          | some cl =>
            by_cases ht : o.txnSave = true
            · by_cases hpr : o.propSave = true
              · by_cases hga : o.agentSave = true
                · rw [transaction_create_view] at h
                  simp [h1, hp, hag, h4, hcl, ht, hpr, hga] at h
                  obtain ⟨hdb, htt⟩ := h
                  subst htt
                  refine ⟨h1, prop, ag, cl, rfl, rfl, h4, rfl, rfl, ?_⟩
                  rw [h4]
                  exact hdb.symm
                · rw [transaction_create_view] at h
                  simp [h1, hp, hag, h4, hcl, ht, hpr, hga] at h
              · rw [transaction_create_view] at h
                simp [h1, hp, hag, h4, hcl, ht, hpr] at h
            · rw [transaction_create_view] at h
              simp [h1, hp, hag, h4, hcl, ht] at h
        · rw [transaction_create_view] at h; simp [h1, hp, hag, h4] at h
  · rw [transaction_create_view] at h; simp [h1] at h


/-! Claim theorems. -/

/-- C10: `get_price_per_sqft` never divides by zero — it returns
`price / square_feet` exactly when `square_feet` is present and strictly
positive, and returns 0 when `square_feet` is absent or not strictly
positive. -/
theorem C10_price_per_sqft_safe (p : Property) :
    (∃ s, p.square_feet = some s ∧ 0 < s ∧
      get_price_per_sqft p = p.price / (s : ℚ)) ∨
    ((p.square_feet = none ∨ ∃ s, p.square_feet = some s ∧ s ≤ 0) ∧
      get_price_per_sqft p = 0) := by
  cases hs : p.square_feet with
  | none =>
      right
      exact ⟨Or.inl rfl, by simp [get_price_per_sqft, hs]⟩
  | some s =>
      by_cases h : 0 < s
      · left
        refine ⟨s, rfl, h, ?_⟩
        have hc : s ≠ 0 ∧ s > 0 := ⟨by omega, h⟩
        simp [get_price_per_sqft, hs, hc]
      · right
        refine ⟨Or.inr ⟨s, rfl, by omega⟩, ?_⟩
        have hc : ¬ (s ≠ 0 ∧ s > 0) := by omega
        simp [get_price_per_sqft, hs, hc]

/-- C9: `agent_profile_update` can change only the five `AgentProfileForm`
fields (license_number, agency_name, commission_rate, specialization,
years_experience); the agent's rating, total_sales counter, key and linked
user account, and every other table, are unchanged. -/
theorem C9_agent_profile_update_frame (db : DB) (actor : UserR)
    (f : AgentProfileFormData) (ag : Agent)
    (h : findAgentByUser db actor.user_id = some ag) :
    ∃ a2, agent_profile_update db actor f = .ok (updateAgent db a2) ∧
      a2.license_number = f.license_number ∧
      a2.agency_name = f.agency_name ∧
      a2.commission_rate = f.commission_rate ∧
      a2.specialization = f.specialization ∧
      a2.years_experience = f.years_experience ∧
      a2.rating = ag.rating ∧
      a2.total_sales = ag.total_sales ∧
      a2.user_id = ag.user_id ∧
      a2.agent_id = ag.agent_id ∧
      (updateAgent db a2).properties = db.properties ∧
      (updateAgent db a2).clients = db.clients ∧
      (updateAgent db a2).transactions = db.transactions ∧
      (updateAgent db a2).appointments = db.appointments ∧
      (updateAgent db a2).reviews = db.reviews ∧
      findAgentByUser (updateAgent db a2) actor.user_id = some a2 := by
  refine ⟨{ ag with
      license_number := f.license_number
      agency_name := f.agency_name
      commission_rate := f.commission_rate
      specialization := f.specialization
      years_experience := f.years_experience },
    ?_, rfl, rfl, rfl, rfl, rfl, rfl, rfl, rfl, rfl, rfl, rfl, rfl, rfl, rfl, ?_⟩
  · simp [agent_profile_update, h]
  · exact find?_agent_update db.agents actor.user_id ag _ h rfl rfl

/-- C9 witness: the frame theorem applied at the base fixture. -/
theorem C9_witness :
    findAgentByUser db0 agentUser.user_id = some agent1 ∧
    (∃ a2, agent_profile_update db0 agentUser profileForm1 = .ok (updateAgent db0 a2) ∧
      a2.license_number = profileForm1.license_number ∧
      a2.agency_name = profileForm1.agency_name ∧
      a2.commission_rate = profileForm1.commission_rate ∧
      a2.specialization = profileForm1.specialization ∧
      a2.years_experience = profileForm1.years_experience ∧
      a2.rating = agent1.rating ∧
      a2.total_sales = agent1.total_sales ∧
      a2.user_id = agent1.user_id ∧
      a2.agent_id = agent1.agent_id ∧
      (updateAgent db0 a2).properties = db0.properties ∧
      (updateAgent db0 a2).clients = db0.clients ∧
      (updateAgent db0 a2).transactions = db0.transactions ∧
      (updateAgent db0 a2).appointments = db0.appointments ∧
      (updateAgent db0 a2).reviews = db0.reviews ∧
      findAgentByUser (updateAgent db0 a2) agentUser.user_id = some a2) :=
  ⟨by decide, C9_agent_profile_update_frame db0 agentUser profileForm1 agent1 (by decide)⟩

/-- C8: every appointment created by `appointment_create_view` takes its
agent from the property's agent at creation time and starts in status
`scheduled`; the stored agent is a snapshot — the appointment-update path
never changes it, and reassigning the listing's agent afterwards (admin
change form) leaves every appointment row untouched. -/
theorem C8_appointment_agent_snapshot :
    (∀ db actor pk f db' a,
      appointment_create_view db actor pk f = .ok db' a →
        ∃ prop, findProperty db pk = some prop ∧
          a.agent_id = prop.agent_id ∧
          a.status = AppointmentStatus.scheduled ∧
          db'.appointments = db.appointments ++ [a]) ∧
    (∀ db actor pk s n db' a2,
      appointment_update_view db actor pk s n = .ok db' a2 →
        ∃ a, findAppointment db pk = some a ∧ a2.agent_id = a.agent_id) ∧
    (∀ db pk na, (admin_property_change_agent db pk na).appointments = db.appointments) := by
  refine ⟨?_, ?_, ?_⟩
  · intro db actor pk f db' a h
    by_cases h1 : actor.user_type = UserType.client
    · cases hp : findProperty db pk with
      | none => rw [appointment_create_view] at h; simp [h1, hp] at h
      | some prop =>
        cases hc : findClientByUser db actor.user_id with
        | none => rw [appointment_create_view] at h; simp [h1, hp, hc] at h
        | some cl =>
            rw [appointment_create_view] at h
            simp [h1, hp, hc] at h
            obtain ⟨hdb, hrow⟩ := h
            subst hdb
            subst hrow
            exact ⟨prop, rfl, rfl, rfl, rfl⟩
    · rw [appointment_create_view] at h; simp [h1] at h
  · intro db actor pk s n db' a2 h
    cases ha : findAppointment db pk with
    | none => rw [appointment_update_view] at h; simp [ha] at h
    | some a =>
        rw [appointment_update_view] at h
        by_cases hauth : apptUpdateAuthorized db actor a = true
        · simp [ha, hauth] at h
          obtain ⟨hdb, ha2⟩ := h
          subst hdb
          subst ha2
          exact ⟨a, rfl, rfl⟩
        · simp [ha, hauth] at h
  · intro db pk na
    rw [admin_property_change_agent]
    cases findProperty db pk <;> rfl

/-- C8 witness: scheduling a viewing of `prop1` by `client1` snapshots
agent 1 and starts in `scheduled`. -/
theorem C8_witness :
    ∃ prop, findProperty db0 1 = some prop ∧
      ({ appt1 with status := AppointmentStatus.scheduled } : Appointment).agent_id = prop.agent_id ∧
      ({ appt1 with status := AppointmentStatus.scheduled } : Appointment).status = AppointmentStatus.scheduled ∧
      ({ db0 with appointments := [{ appt1 with status := AppointmentStatus.scheduled }] } : DB).appointments =
        db0.appointments ++ [{ appt1 with status := AppointmentStatus.scheduled }] :=
  C8_appointment_agent_snapshot.1 db0 clientUser 1 apptForm1
    { db0 with appointments := [{ appt1 with status := AppointmentStatus.scheduled }] }
    { appt1 with status := AppointmentStatus.scheduled } (by decide)

/-- Concrete evaluation: the fully successful close of `prop1` at the base
fixture produces exactly `db3c` and `t1ok`. -/
theorem closeDeal_db0_ok :
    transaction_create_view db0 agentUser 1 (some form1) (some 1) allOk =
      CloseDealOutcome.ok db3c t1ok := by
  have hc : quantizeHalfEven2 ((300000 : ℚ) * (3 / 100)) = 9000 := by
    norm_num [quantizeHalfEven2, roundHalfEven]
  simp [transaction_create_view, db0, agentUser, form1, allOk, prop1, agent1, client1,
    findProperty, findAgentByUser, findClient, List.find?, updateProperty, updateAgent,
    db3c, t1ok, hc]

/-- C1 counterexample: with the store accepting the Transaction insert but
rejecting the Property update, the call fails, yet the Transaction row is
already committed while the Property keeps status `available` and the
Agent's counter its old value — exactly the partial state the claim rules
out, so the three writes are not applied atomically. -/
theorem C1_counterexample :
    (transaction_create_view db0 agentUser 1 (some form1) (some 1)
        { txnSave := true, propSave := false, agentSave := true }).isOk = false ∧
    (transaction_create_view db0 agentUser 1 (some form1) (some 1)
        { txnSave := true, propSave := false, agentSave := true }).db.transactions.length = 1 ∧
    db0.transactions.length = 0 ∧
    findProperty (transaction_create_view db0 agentUser 1 (some form1) (some 1)
        { txnSave := true, propSave := false, agentSave := true }).db 1 = some prop1 ∧
    prop1.status = PropertyStatus.available ∧
    findAgentByUser (transaction_create_view db0 agentUser 1 (some form1) (some 1)
        { txnSave := true, propSave := false, agentSave := true }).db 10 = some agent1 := by
  decide

/-- C1 amended: the three writes of `transaction_create_view` are three
separate commits in source order with no enclosing transaction. When the
store accepts all writes, the successful outcome carries all three effects;
but when the Property write fails after the Transaction insert, the insert
persists while Property and Agent rows stay untouched. -/
theorem C1_amended :
    (∀ db actor pk cid f o db' t,
      transaction_create_view db actor pk (some f) (some cid) o = .ok db' t →
        db'.transactions = db.transactions ++ [t] ∧
        (∃ prop, findProperty db pk = some prop ∧
          findProperty db' pk = some { prop with
            status := if f.transaction_type = TransactionType.sale
                      then PropertyStatus.sold else PropertyStatus.rented,
            sold_date := some f.transaction_date }) ∧
        (∃ ag, findAgentByUser db actor.user_id = some ag ∧
          findAgentByUser db' actor.user_id =
            some { ag with total_sales := ag.total_sales + 1 })) ∧
    (∀ db actor pk cid f ga db1,
      transaction_create_view db actor pk (some f) (some cid)
          { txnSave := true, propSave := false, agentSave := ga } = .err .storage db1 →
        (∃ t, db1.transactions = db.transactions ++ [t]) ∧
        db1.properties = db.properties ∧ db1.agents = db.agents) := by
  constructor
  · intro db actor pk cid f o db' t h
    obtain ⟨h1, prop, ag, cl, hp, hag, h4, hcl, ht, hdb⟩ :=
      closeDeal_ok_inv db actor pk cid f o db' t h
    subst hdb
    refine ⟨rfl, ⟨prop, hp, ?_⟩, ⟨ag, hag, ?_⟩⟩
    · exact find?_prop_update db.properties pk prop _ hp rfl
    · exact find?_agent_update db.agents actor.user_id ag _ hag rfl rfl
  · intro db actor pk cid f ga db1 h
    by_cases h1 : actor.user_type = UserType.agent
    · cases hp : findProperty db pk with
      | none => rw [transaction_create_view] at h; simp [h1, hp] at h
      | some prop =>
        cases hag : findAgentByUser db actor.user_id with
        | none => rw [transaction_create_view] at h; simp [h1, hp, hag] at h
        | some ag =>
          by_cases h4 : prop.agent_id = ag.agent_id
          · cases hcl : findClient db cid with
            | none => rw [transaction_create_view] at h; simp [h1, hp, hag, h4, hcl] at h
            | some cl =>
              rw [transaction_create_view] at h
              simp [h1, hp, hag, h4, hcl] at h
              subst h
              exact ⟨⟨_, rfl⟩, rfl, rfl⟩
          · rw [transaction_create_view] at h; simp [h1, hp, hag, h4] at h
    · rw [transaction_create_view] at h; simp [h1] at h

/-- C1 amended witness: the all-success branch at the base fixture. -/
theorem C1_amended_witness :
    db3c.transactions = db0.transactions ++ [t1ok] ∧
    (∃ prop, findProperty db0 1 = some prop ∧
      findProperty db3c 1 = some { prop with
        status := if form1.transaction_type = TransactionType.sale
                  then PropertyStatus.sold else PropertyStatus.rented,
        sold_date := some form1.transaction_date }) ∧
    (∃ ag, findAgentByUser db0 agentUser.user_id = some ag ∧
      findAgentByUser db3c agentUser.user_id =
        some { ag with total_sales := ag.total_sales + 1 }) :=
  C1_amended.1 db0 agentUser 1 1 form1 allOk db3c t1ok closeDeal_db0_ok

/-- Concrete evaluation: closing the already sold listing succeeds and lands
in the same state `db3c` (status and sold_date simply overwritten). -/
theorem closeDeal_dbSold_ok :
    transaction_create_view dbSold agentUser 1 (some form1) (some 1) allOk =
      CloseDealOutcome.ok db3c t1ok := by
  have hc : quantizeHalfEven2 ((300000 : ℚ) * (3 / 100)) = 9000 := by
    norm_num [quantizeHalfEven2, roundHalfEven]
  simp [transaction_create_view, dbSold, db0, agentUser, form1, allOk, prop1, agent1,
    client1, findProperty, findAgentByUser, findClient, List.find?, updateProperty,
    updateAgent, db3c, t1ok, hc]

/-- Concrete evaluation: closing the off-market listing succeeds as well. -/
theorem closeDeal_dbOff_ok :
    transaction_create_view dbOff agentUser 1 (some form1) (some 1) allOk =
      CloseDealOutcome.ok db3c t1ok := by
  have hc : quantizeHalfEven2 ((300000 : ℚ) * (3 / 100)) = 9000 := by
    norm_num [quantizeHalfEven2, roundHalfEven]
  simp [transaction_create_view, dbOff, db0, agentUser, form1, allOk, prop1, agent1,
    client1, findProperty, findAgentByUser, findClient, List.find?, updateProperty,
    updateAgent, db3c, t1ok, hc]

/-- Concrete evaluation: the 2.50 sale at rate 5.00 has exact commission
0.125, and the save-time quantization stores the even cent 0.12. -/
theorem closeDeal_dbTie_ok :
    transaction_create_view dbTie agentUser 1 (some formTie) (some 1) allOk =
      CloseDealOutcome.ok dbTieAfter tTie := by
  have hc : quantizeHalfEven2 ((5 / 2 : ℚ) * (5 / 100)) = 12 / 100 := by
    norm_num [quantizeHalfEven2, roundHalfEven]
  simp [transaction_create_view, dbTie, db0, agentUser, formTie, form1, allOk, prop1,
    agentTie, agent1, client1, findProperty, findAgentByUser, findClient, List.find?,
    updateProperty, updateAgent, dbTieAfter, tTie, t1ok, hc]

/-- C2 counterexample: the view has no status precondition — closing a deal
on the already sold `prop1` succeeds (no StateConflictError exists on this
path), inserts a Transaction, and bumps the agent's counter, so none of the
three entities is left unchanged. -/
theorem C2_counterexample :
    findProperty dbSold 1 = some { prop1 with status := PropertyStatus.sold } ∧
    (transaction_create_view dbSold agentUser 1 (some form1) (some 1) allOk).isOk = true ∧
    (transaction_create_view dbSold agentUser 1 (some form1) (some 1) allOk).db.transactions.length = 1 ∧
    dbSold.transactions.length = 0 ∧
    findAgentByUser (transaction_create_view dbSold agentUser 1 (some form1) (some 1) allOk).db 10 =
      some { agent1 with total_sales := 5 } := by
  refine ⟨by decide, ?_, ?_, by decide, ?_⟩ <;> rw [closeDeal_dbSold_ok] <;> decide

/-- C2 amended: `transaction_create_view` checks ownership and existence but
never the property's status: for a property in any status (sold, rented,
off_market included), a call by the owning agent with a valid form and an
existing client succeeds when the store accepts the writes, inserting the
Transaction and incrementing the agent's counter. -/
theorem C2_amended (db : DB) (actor : UserR) (pk cid : Nat) (f : TransactionFormData)
    (prop : Property) (ag : Agent) (cl : Client)
    (h1 : actor.user_type = UserType.agent)
    (hp : findProperty db pk = some prop)
    (hag : findAgentByUser db actor.user_id = some ag)
    (h4 : prop.agent_id = ag.agent_id)
    (hcl : findClient db cid = some cl) :
    ∃ db' t, transaction_create_view db actor pk (some f) (some cid) allOk = .ok db' t ∧
      db'.transactions = db.transactions ++ [t] ∧
      findAgentByUser db' actor.user_id =
        some { ag with total_sales := ag.total_sales + 1 } := by
  have hok : transaction_create_view db actor pk (some f) (some cid) allOk =
      .ok (updateAgent
            (updateProperty { db with transactions := db.transactions ++
                [{ transaction_id := db.transactions.length + 1
                   property_id := prop.property_id
                   client_id := cl.client_id
                   agent_id := ag.agent_id
                   transaction_type := f.transaction_type
                   transaction_date := f.transaction_date
                   final_price := f.final_price
                   commission_amount := some (quantizeHalfEven2 (f.final_price * (ag.commission_rate / 100)))
                   payment_status := f.payment_status
                   lease_start_date := f.lease_start_date
                   lease_end_date := f.lease_end_date
                   notes := f.notes }] }
              { prop with
                status := if f.transaction_type = TransactionType.sale
                          then PropertyStatus.sold else PropertyStatus.rented
                sold_date := some f.transaction_date })
            { ag with total_sales := ag.total_sales + 1 })
          { transaction_id := db.transactions.length + 1
            property_id := prop.property_id
            client_id := cl.client_id
            agent_id := ag.agent_id
            transaction_type := f.transaction_type
            transaction_date := f.transaction_date
            final_price := f.final_price
            commission_amount := some (quantizeHalfEven2 (f.final_price * (ag.commission_rate / 100)))
            payment_status := f.payment_status
            lease_start_date := f.lease_start_date
            lease_end_date := f.lease_end_date
            notes := f.notes } := by
    rw [transaction_create_view]
    simp [h1, hp, hag, h4, hcl, allOk]
  refine ⟨_, _, hok, rfl, ?_⟩
  exact find?_agent_update db.agents actor.user_id ag _ hag rfl rfl

/-- C2 amended witness: the sold listing accepts a new deal. -/
theorem C2_amended_witness :
    ∃ db' t, transaction_create_view dbSold agentUser 1 (some form1) (some 1) allOk = .ok db' t ∧
      db'.transactions = dbSold.transactions ++ [t] ∧
      findAgentByUser db' agentUser.user_id =
        some { agent1 with total_sales := agent1.total_sales + 1 } :=
  C2_amended dbSold agentUser 1 1 form1 { prop1 with status := PropertyStatus.sold }
    agent1 client1 (by decide) (by decide) (by decide) (by decide) (by decide)

/-- C3 counterexample: for the 2.50 sale at commission rate 5.00 the exact
commission is the half-cent tie 0.125; the program stores the two-decimal
quantization with the decimal module's default ties-to-even rounding, 0.12,
while the claim's half-up rounding demands 0.13 — so the stored commission
is not the half-up rounded value the claim states. -/
theorem C3_counterexample :
    ((transaction_create_view dbTie agentUser 1 (some formTie) (some 1) allOk).txn.bind
        Transaction.commission_amount) = some (12 / 100 : ℚ) ∧
    specRoundHalfUpCents (formTie.final_price * (agentTie.commission_rate / 100)) =
      13 / 100 ∧
    (12 / 100 : ℚ) ≠ 13 / 100 := by
  refine ⟨?_, ?_, by norm_num⟩
  · rw [closeDeal_dbTie_ok]; rfl
  · rw [specRoundHalfUpCents]
    norm_num [formTie, form1, agentTie, agent1]

/-- C3 amended: the stored commission is the product
`final_price * (commission_rate / 100)` quantized to the two-decimal grid
with the decimal module's default ROUND_HALF_EVEN rounding (ties to the even
cent, agreeing with half-up everywhere except exact half-cent ties), fixed
at creation time; and no embedded operation ever rewrites an existing
Transaction row — the transactions table is only appended to. -/
theorem C3_amended :
    (∀ db actor pk cid f o db' t,
      transaction_create_view db actor pk (some f) (some cid) o = .ok db' t →
        ∃ ag, findAgentByUser db actor.user_id = some ag ∧
          t.commission_amount =
            some (quantizeHalfEven2 (f.final_price * (ag.commission_rate / 100))) ∧
          db'.transactions = db.transactions ++ [t]) ∧
    (∀ db actor pk s n, (appointment_update_view db actor pk s n).db.transactions = db.transactions) ∧
    (∀ db actor pk f, (appointment_create_view db actor pk f).db.transactions = db.transactions) ∧
    (∀ db actor pk f, (review_create_view db actor pk f).db.transactions = db.transactions) ∧
    (∀ db actor f, (agent_profile_update db actor f).db.transactions = db.transactions) ∧
    (∀ db pk na, (admin_property_change_agent db pk na).transactions = db.transactions) := by
  refine ⟨?_, ?_, ?_, ?_, ?_, ?_⟩
  · intro db actor pk cid f o db' t h
    obtain ⟨h1, prop, ag, cl, hp, hag, h4, hcl, ht, hdb⟩ :=
      closeDeal_ok_inv db actor pk cid f o db' t h
    subst hdb
    subst ht
    exact ⟨ag, hag, rfl, rfl⟩
  · intro db actor pk s n
    rw [appointment_update_view]
    cases findAppointment db pk with
    | none => rfl
    | some a =>
        by_cases hauth : apptUpdateAuthorized db actor a = true
        · simp [hauth, ApptOutcome.db, updateAppointment]
        · simp [hauth, ApptOutcome.db]
  · intro db actor pk f
    rw [appointment_create_view]
    by_cases h1 : actor.user_type = UserType.client
    · simp only [h1]
      cases findProperty db pk with
      | none => rfl
      | some prop =>
          cases findClientByUser db actor.user_id with
          | none => rfl
          | some cl => rfl
    · simp [h1, ApptOutcome.db]
  · intro db actor pk f
    rw [review_create_view]
    by_cases h1 : actor.user_type = UserType.client
    · simp only [h1]
      cases findProperty db pk with
      | none => rfl
      | some prop =>
          cases findClientByUser db actor.user_id with
          | none => rfl
          | some cl =>
              by_cases hex : reviewExistsFor db cl.client_id pk = true
              · simp [hex, ReviewOutcome.db]
              · simp [hex, ReviewOutcome.db, reviewInsert]
    · simp [h1, ReviewOutcome.db]
  · intro db actor f
    rw [agent_profile_update]
    cases findAgentByUser db actor.user_id with
    | none => rfl
    | some a => rfl
  · intro db pk na
    rw [admin_property_change_agent]
    cases findProperty db pk <;> rfl

/-- C3 amended witness: the base close stores the quantized commission of
300000 at rate 3%, which is the on-grid value 9000. -/
theorem C3_amended_witness :
    ∃ ag, findAgentByUser db0 agentUser.user_id = some ag ∧
      t1ok.commission_amount =
        some (quantizeHalfEven2 (form1.final_price * (ag.commission_rate / 100))) ∧
      db3c.transactions = db0.transactions ++ [t1ok] :=
  C3_amended.1 db0 agentUser 1 1 form1 allOk db3c t1ok closeDeal_db0_ok

/-- C4 counterexample: a fully successful close happens on a property whose
status before the call was `off_market`, refuting the claim's assertion that
a successful closeDeal implies the prior status was `available` or
`pending`. -/
theorem C4_counterexample :
    findProperty dbOff 1 = some { prop1 with status := PropertyStatus.off_market } ∧
    (transaction_create_view dbOff agentUser 1 (some form1) (some 1) allOk).isOk = true ∧
    ¬ (PropertyStatus.off_market = PropertyStatus.available ∨
       PropertyStatus.off_market = PropertyStatus.pending) := by
  refine ⟨by decide, ?_, by decide⟩
  rw [closeDeal_dbOff_ok]
  rfl

/-- C4 amended: after a successful closeDeal the property's status is `sold`
for a sale and `rented` for a rental (hence in {sold, rented}) and its
sold_date equals the transaction's date; the status the property held before
the call is unconstrained. -/
theorem C4_amended (db : DB) (actor : UserR) (pk cid : Nat) (f : TransactionFormData)
    (o : SaveOracle) (db' : DB) (t : Transaction)
    (h : transaction_create_view db actor pk (some f) (some cid) o = .ok db' t) :
    ∃ prop, findProperty db pk = some prop ∧
      findProperty db' pk = some { prop with
        status := if f.transaction_type = TransactionType.sale
                  then PropertyStatus.sold else PropertyStatus.rented,
        sold_date := some f.transaction_date } ∧
      t.transaction_date = f.transaction_date ∧
      ((if f.transaction_type = TransactionType.sale
        then PropertyStatus.sold else PropertyStatus.rented) = PropertyStatus.sold ∨
       (if f.transaction_type = TransactionType.sale
        then PropertyStatus.sold else PropertyStatus.rented) = PropertyStatus.rented) := by
  obtain ⟨h1, prop, ag, cl, hp, hag, h4, hcl, ht, hdb⟩ :=
    closeDeal_ok_inv db actor pk cid f o db' t h
  subst hdb
  subst ht
  refine ⟨prop, hp, ?_, rfl, ?_⟩
  · exact find?_prop_update db.properties pk prop _ hp rfl
  · cases f.transaction_type <;> simp

/-- C4 amended witness: the off-market close ends sold with sold_date 200. -/
theorem C4_amended_witness :
    ∃ prop, findProperty dbOff 1 = some prop ∧
      findProperty db3c 1 = some { prop with
        status := if form1.transaction_type = TransactionType.sale
                  then PropertyStatus.sold else PropertyStatus.rented,
        sold_date := some form1.transaction_date } ∧
      t1ok.transaction_date = form1.transaction_date ∧
      ((if form1.transaction_type = TransactionType.sale
        then PropertyStatus.sold else PropertyStatus.rented) = PropertyStatus.sold ∨
       (if form1.transaction_type = TransactionType.sale
        then PropertyStatus.sold else PropertyStatus.rented) = PropertyStatus.rented) :=
  C4_amended dbOff agentUser 1 1 form1 allOk db3c t1ok closeDeal_dbOff_ok

/-- C5 counterexample: an appointment already in the terminal status
`completed` is moved back to `scheduled` by the update view — the
transition succeeds and the stored status changes, and no StateConflictError
exists on this path. -/
theorem C5_counterexample :
    appt1.status = AppointmentStatus.completed ∧
    appointment_update_view dbAppt adminUser 1 AppointmentStatus.scheduled none =
      .ok { dbAppt with appointments := [{ appt1 with status := AppointmentStatus.scheduled }] }
         { appt1 with status := AppointmentStatus.scheduled } ∧
    findAppointment (appointment_update_view dbAppt adminUser 1
        AppointmentStatus.scheduled none).db 1 =
      some { appt1 with status := AppointmentStatus.scheduled } := by
  decide

/-- C5 amended: `appointment_update_view` enforces no transition relation at
all: for an authorized actor it overwrites the status of an existing
appointment with any submitted value, whatever the current status
(terminal ones included). -/
theorem C5_amended (db : DB) (actor : UserR) (pk : Nat) (s : AppointmentStatus)
    (n : Option String) (appt : Appointment)
    (ha : findAppointment db pk = some appt)
    (hauth : apptUpdateAuthorized db actor appt = true) :
    appointment_update_view db actor pk s n =
      .ok (updateAppointment db { appt with status := s, notes := n })
          { appt with status := s, notes := n } ∧
    findAppointment (updateAppointment db { appt with status := s, notes := n }) pk =
      some { appt with status := s, notes := n } := by
  constructor
  · rw [appointment_update_view]
    simp [ha, hauth]
  · exact find?_appt_update db.appointments pk appt _ ha rfl

/-- C5 amended witness: the completed appointment is overwritten to
`no_show`. -/
theorem C5_amended_witness :
    appointment_update_view dbAppt adminUser 1 AppointmentStatus.no_show none =
      .ok (updateAppointment dbAppt { appt1 with status := AppointmentStatus.no_show, notes := none })
          { appt1 with status := AppointmentStatus.no_show, notes := none } ∧
    findAppointment (updateAppointment dbAppt
        { appt1 with status := AppointmentStatus.no_show, notes := none }) 1 =
      some { appt1 with status := AppointmentStatus.no_show, notes := none } :=
  C5_amended dbAppt adminUser 1 AppointmentStatus.no_show none appt1 (by decide) (by decide)

/-- C6 counterexample: the `Reviews` table carries no unique constraint
(`Review.Meta` declares none), so the store-level insert accepts a duplicate
(client, property) pair: two inserts interleaved after both pass the
`exists()` pre-check leave two rows for the pair (1, 1) — uniqueness is not
enforced atomically by the store, only by the race-prone pre-check. -/
theorem C6_counterexample :
    reviewExistsFor db0 1 1 = false ∧
    ((reviewInsert (reviewInsert db0 client1 prop1 rform) client1 prop1 rform).reviews.filter
        (fun rv => rv.client_id == 1 && rv.property_id == some 1)).length = 2 ∧
    reviewMetaUniqueConstraints = [] := by
  decide

/-- C6 amended: sequentially, a second `review_create_view` call with the
same (client, property) pair is rejected by the `exists()` pre-check and
inserts no row; but that is the only enforcement — the model declares no
unique constraint and the store-level insert unconditionally appends. -/
theorem C6_amended :
    (∀ db actor pk f db' r,
      review_create_view db actor pk f = .ok db' r →
        review_create_view db' actor pk f = .alreadyReviewed db') ∧
    reviewMetaUniqueConstraints = [] ∧
    (∀ db cl prop f, ((reviewInsert db cl prop f).reviews).length = db.reviews.length + 1) := by
  refine ⟨?_, rfl, ?_⟩
  · intro db actor pk f db' r h
    by_cases h1 : actor.user_type = UserType.client
    · cases hp : findProperty db pk with
      | none => rw [review_create_view] at h; simp [h1, hp] at h
      | some prop =>
        cases hcu : findClientByUser db actor.user_id with
        | none => rw [review_create_view] at h; simp [h1, hp, hcu] at h
        | some cl =>
          by_cases hex : reviewExistsFor db cl.client_id pk = true
          · rw [review_create_view] at h; simp [h1, hp, hcu, hex] at h
          · rw [review_create_view] at h
            simp [h1, hp, hcu, hex] at h
            obtain ⟨hdb, hr⟩ := h
            subst hdb
            have hpk : prop.property_id = pk := by
              have := List.find?_some hp
              simpa using this
            have hp' : findProperty (reviewInsert db cl prop f) pk = some prop := hp
            have hcu' : findClientByUser (reviewInsert db cl prop f) actor.user_id = some cl := hcu
            have hex2 : reviewExistsFor (reviewInsert db cl prop f) cl.client_id pk = true := by
              rw [reviewExistsFor]
              simp [reviewInsert, List.any_append, hpk]
            rw [review_create_view]
            simp [h1, hp', hcu', hex2]
    · rw [review_create_view] at h; simp [h1] at h
  · intro db cl prop f
    simp [reviewInsert]

/-- C6 amended witness: the second submission of `client1` on `prop1` is
rejected with the database unchanged. -/
theorem C6_amended_witness :
    review_create_view dbR clientUser 1 rform = .alreadyReviewed dbR :=
  C6_amended.1 db0 clientUser 1 rform dbR r1 (by decide)

/-- C7 counterexample: the view's base queryset is hardwired to
`status='available'`, so a query supplying only the status filter with
value `sold` returns the empty list even though a sold property exists —
not "exactly the properties whose status is s". -/
theorem C7_counterexample :
    property_list_view dbSold fStatusSold = [] ∧
    dbSold.properties.filter (fun p => p.status == PropertyStatus.sold) =
      [{ prop1 with status := PropertyStatus.sold }] := by
  decide

/-- C7 amended: all supplied filters are optional and AND-combined, but on
top of an always-applied base predicate `status = available`: a property is
returned exactly when it is in the table, its status is `available`, and
every truthy filter of the form matches it (so a status-only query with
value s returns the properties whose status is both `available` and s). -/
theorem C7_amended (db : DB) (f : PropertySearchFormData) (p : Property) :
    p ∈ property_list_view db f ↔
      p ∈ db.properties ∧ p.status = PropertyStatus.available ∧
      (strTruthy f.search_query = true →
        searchPred db (f.search_query.getD "") p = true) ∧
      (f.listing_type.isSome = true → f.listing_type = some p.listing_type) ∧
      (f.property_type.isSome = true → f.property_type = some p.property_type_id) ∧
      (decTruthy f.min_price = true → f.min_price.getD 0 ≤ p.price) ∧
      (decTruthy f.max_price = true → p.price ≤ f.max_price.getD 0) ∧
      (intTruthy f.min_bedrooms = true → f.min_bedrooms.getD 0 ≤ p.bedrooms) ∧
      (strTruthy f.city = true →
        icontains (propertyCity db p) (f.city.getD "") = true) ∧
      (f.status.isSome = true → f.status = some p.status) := by
  simp only [property_list_view, mem_applyIf, List.mem_filter, decide_eq_true_eq,
    beq_iff_eq]
  tauto

/-- C7 amended witness: the characterization at the sold listing and the
status-only query explains the empty result — the base predicate fails. -/
theorem C7_amended_witness :
    ({ prop1 with status := PropertyStatus.sold } : Property) ∈
        property_list_view dbSold fStatusSold ↔
      ({ prop1 with status := PropertyStatus.sold } : Property) ∈ dbSold.properties ∧
      ({ prop1 with status := PropertyStatus.sold } : Property).status = PropertyStatus.available ∧
      (strTruthy fStatusSold.search_query = true →
        searchPred dbSold (fStatusSold.search_query.getD "")
          { prop1 with status := PropertyStatus.sold } = true) ∧
      (fStatusSold.listing_type.isSome = true →
        fStatusSold.listing_type = some ({ prop1 with status := PropertyStatus.sold } : Property).listing_type) ∧
      (fStatusSold.property_type.isSome = true →
        fStatusSold.property_type = some ({ prop1 with status := PropertyStatus.sold } : Property).property_type_id) ∧
      (decTruthy fStatusSold.min_price = true →
        fStatusSold.min_price.getD 0 ≤ ({ prop1 with status := PropertyStatus.sold } : Property).price) ∧
      (decTruthy fStatusSold.max_price = true →
        ({ prop1 with status := PropertyStatus.sold } : Property).price ≤ fStatusSold.max_price.getD 0) ∧
      (intTruthy fStatusSold.min_bedrooms = true →
        fStatusSold.min_bedrooms.getD 0 ≤ ({ prop1 with status := PropertyStatus.sold } : Property).bedrooms) ∧
      (strTruthy fStatusSold.city = true →
        icontains (propertyCity dbSold { prop1 with status := PropertyStatus.sold })
          (fStatusSold.city.getD "") = true) ∧
      (fStatusSold.status.isSome = true →
        fStatusSold.status = some ({ prop1 with status := PropertyStatus.sold } : Property).status) :=
  C7_amended dbSold fStatusSold { prop1 with status := PropertyStatus.sold }

end RealEstate
